import Mathlib

/-
Verification development for the offline caching controller (service worker)
of the Protocolos site.  The definitions below are a shallow embedding of the
service worker source: the two named cache stores are modelled as
insertion-ordered association lists keyed by the request URL, the network and
the cache storage backend are modelled by an explicit environment, and each
event handler of the source becomes an explicit state-passing function.
Storage failures (a rejected caches.open / cache.match) are modelled by a
single environment flag; a cache.put that is not awaited in the source cannot
propagate a failure and is therefore modelled as an unconditional update.
-/

set_option autoImplicit false

/-- Substring test on character lists: does the list start with the pattern? -/
def listStartsWith : List Char → List Char → Bool
  | _, [] => true
  | [], _ :: _ => false
  | a :: as, b :: bs => a == b && listStartsWith as bs

/-- Substring search on character lists (models JS regex without anchors /
String.prototype.includes). -/
def listSearch (pat : List Char) : List Char → Bool
  | [] => listStartsWith [] pat
  | c :: rest => listStartsWith (c :: rest) pat || listSearch pat rest

/-- Does the string `s` contain `pat` as a contiguous substring? -/
def strContains (s pat : String) : Bool :=
  listSearch pat.toList s.toList

/-- JS `String.prototype.startsWith`. -/
def strStartsWith (s pre : String) : Bool :=
  listStartsWith s.toList pre.toList

/-- JS end-anchored extension test: does `s` end with `suf`? -/
def strEndsWith (s suf : String) : Bool :=
  listStartsWith s.toList.reverse suf.toList.reverse

/-- A response snapshot: status, status text, headers and body, as produced by
the network or synthesized by the fallback generator. -/
structure Response where
  status : Nat
  statusText : String
  headers : List (String × String)
  body : String
deriving DecidableEq, Repr

/-- JS `response.ok`: status in the 200..299 range. -/
def Response.isOkStatus (r : Response) : Bool :=
  200 ≤ r.status && r.status < 300

/-- An intercepted request, carrying the fields the source reads off
`request` and `new URL(request.url)`. -/
structure Request where
  method : String
  href : String
  protocol : String
  origin : String
  pathname : String
  accept : Option String
deriving DecidableEq, Repr

/-- `const CACHE_NAME = 'tumatch-protocolo-v1.0.0'`. -/
def CACHE_NAME : String := "tumatch-protocolo-v1.0.0"

/-- Name of the static store. -/
def STATIC_CACHE : String := CACHE_NAME ++ "-static"

/-- Name of the dynamic store. -/
def DYNAMIC_CACHE : String := CACHE_NAME ++ "-dynamic"

/-- The declared critical-asset list (`STATIC_ASSETS` in the source). -/
def STATIC_ASSETS : List String :=
  [ "/"
  , "/Inicio.html"
  , "/css/variables.css"
  , "/css/base.css"
  , "/css/components.css"
  , "/css/layout.css"
  , "/js/utils.js"
  , "/js/search.js"
  , "/js/modal.js"
  , "/js/main.js"
  , "/manifest.json" ]

/-- `DYNAMIC_ASSETS_PATTERNS`: each regex is an end-anchored extension test of
the pathname, so it is a suffix test. -/
def DYNAMIC_ASSETS_SUFFIXES : List String :=
  [".html", ".css", ".js", ".png", ".jpg", ".jpeg", ".svg", ".webp"]

/-- `NETWORK_FIRST_PATTERNS`: each regex is unanchored with escaped dots, so it
is a substring test of the full URL. -/
def NETWORK_FIRST_SUBSTRINGS : List String :=
  ["/api/", "googleapis.com", "googleusercontent.com", "youtube.com", "docs.google.com"]

/-- `NETWORK_FIRST_PATTERNS.some(pattern => pattern.test(url.href))`. -/
def matchesNetworkFirst (href : String) : Bool :=
  NETWORK_FIRST_SUBSTRINGS.any (fun pat => strContains href pat)

/-- `DYNAMIC_ASSETS_PATTERNS.some(pattern => pattern.test(url.pathname))`. -/
def matchesDynamicPattern (pathname : String) : Bool :=
  DYNAMIC_ASSETS_SUFFIXES.any (fun suf => strEndsWith pathname suf)

/-- `shouldCache(request)` from the source. -/
def shouldCache (req : Request) : Bool :=
  if matchesNetworkFirst req.href then false
  else matchesDynamicPattern req.pathname

/-- `request.headers.get('accept')?.includes(pat)` (false when absent). -/
def acceptIncludes (req : Request) (pat : String) : Bool :=
  match req.accept with
  | none => false
  | some a => strContains a pat

/-- The two stores of the controller, as insertion-ordered association lists
keyed by full request URL (the Cache API matches by URL). -/
structure SWState where
  staticStore : List (String × Response)
  dynamicStore : List (String × Response)
deriving DecidableEq, Repr

/-- The environment the handlers run in: the worker's own origin
(`location.origin`), the network (one result per URL; `.error` is a rejected
fetch) and whether the cache storage backend is failing (a rejected
`caches.open` / `cache.match`). -/
structure Env where
  selfOrigin : String
  fetch : String → Except Unit Response
  cacheFail : Bool

/-- `cache.match(request)`: first entry with the given URL key. -/
def lookupEntry : List (String × Response) → String → Option Response
  | [], _ => none
  | (k, v) :: rest, key => if k == key then some v else lookupEntry rest key

/-- `cache.put(request, response)`: overwrite the entry with the same key in
place, or append a new entry (at most one entry per key). -/
def putEntry : List (String × Response) → String → Response → List (String × Response)
  | [], key, v => [(key, v)]
  | (k, w) :: rest, key, v =>
      if k == key then (k, v) :: rest else (k, w) :: putEntry rest key v

/-- Boolean key membership in a list of keys. -/
def keyInList (k : String) : List String → Bool
  | [] => false
  | a :: rest => k == a || keyInList k rest

/-- The lookup order of `getCachedResponse`: try the static store first, then
the dynamic store. -/
def cachedLookup (s : SWState) (key : String) : Option Response :=
  match lookupEntry s.staticStore key with
  | some c => some c
  | none => lookupEntry s.dynamicStore key

/-- `getCachedResponse(request)`: open the static store and match, then the
dynamic store; a storage failure rejects. -/
def getCachedResponse (env : Env) (s : SWState) (key : String) :
    Except Unit (Option Response) :=
  if env.cacheFail then .error ()
  else .ok (cachedLookup s key)

/-- `cacheFirst(request)`.  A hit returns the cached entry and starts
`updateCacheInBackground` detached: the background refresh overwrites the
static-store entry when its re-fetch succeeds with an ok status, and swallows
every failure.  A miss fetches; an ok response is written into the static
store (the `cache` handle is the static store) and returned. -/
def cacheFirst (env : Env) (req : Request) (s : SWState) :
    Except Unit (Response × SWState) :=
  if env.cacheFail then .error ()
  else
    match lookupEntry s.staticStore req.href with
    | some cached =>
        let s' :=
          match env.fetch req.href with
          | .ok r =>
              if r.isOkStatus then
                { s with staticStore := putEntry s.staticStore req.href r }
              else s
          | .error _ => s
        .ok (cached, s')
    | none =>
        match env.fetch req.href with
        | .error e => .error e
        | .ok r =>
            if r.isOkStatus then
              .ok (r, { s with staticStore := putEntry s.staticStore req.href r })
            else .ok (r, s)

/-- The catch block of `networkFirst`: try the caches via
`getCachedResponse`; a hit is returned, otherwise the failure is rethrown. -/
def networkFirstCatch (env : Env) (req : Request) (s : SWState) :
    Except Unit (Response × SWState) :=
  match getCachedResponse env s req.href with
  | .error e => .error e
  | .ok (some c) => .ok (c, s)
  | .ok none => .error ()

/-- `networkFirst(request)`.  The try block covers the fetch and the dynamic
store write, so a storage failure while opening the dynamic store also lands
in the catch block. -/
def networkFirst (env : Env) (req : Request) (s : SWState) :
    Except Unit (Response × SWState) :=
  match env.fetch req.href with
  | .ok r =>
      if r.isOkStatus && shouldCache req then
        if env.cacheFail then networkFirstCatch env req s
        else .ok (r, { s with dynamicStore := putEntry s.dynamicStore req.href r })
      else .ok (r, s)
  | .error _ => networkFirstCatch env req s

/-- The two strategies a request can be routed to. -/
inductive Strategy where
  | networkFirstS
  | cacheFirstS
deriving DecidableEq, Repr

/-- The routing decision inside `handleFetch`: the nested if chain of the
source, written as a classification. -/
def classify (env : Env) (req : Request) : Strategy :=
  if matchesNetworkFirst req.href then .networkFirstS
  else if STATIC_ASSETS.contains req.pathname || req.origin == env.selfOrigin then
    .cacheFirstS
  else .networkFirstS

/-- The try block of `handleFetch`: run the strategy the classification
picked. -/
def runStrategy (env : Env) (req : Request) (s : SWState) :
    Except Unit (Response × SWState) :=
  match classify env req with
  | .networkFirstS => networkFirst env req s
  | .cacheFirstS => cacheFirst env req s

/-- The SVG placeholder response synthesized by `getOfflineFallback` for image
requests (a `new Response(body, init)` defaults to status 200). -/
def svgPlaceholder : Response :=
  { status := 200
  , statusText := ""
  , headers := [("Content-Type", "image/svg+xml"), ("Cache-Control", "no-cache")]
  , body := "<svg xmlns=\"http://www.w3.org/2000/svg\" width=\"200\" height=\"150\" viewBox=\"0 0 200 150\"><rect width=\"200\" height=\"150\" fill=\"#f0f0f0\"/><text x=\"50%\" y=\"50%\" text-anchor=\"middle\" dy=\".3em\" fill=\"#999\">Sin conexión</text></svg>" }

/-- The generic offline response of `getOfflineFallback`. -/
def offline503 : Response :=
  { status := 503
  , statusText := "Service Unavailable"
  , headers := [("Content-Type", "text/plain")]
  , body := "Contenido no disponible sin conexión" }

/-- The part of `getOfflineFallback` after the HTML branch: image requests
get a cached copy if present, else the SVG placeholder; everything else gets
the generic 503 response (no storage access on that path). -/
def fallbackAfterHtml (env : Env) (req : Request) (s : SWState) :
    Except Unit (Response × SWState) :=
  if acceptIncludes req "image" then
    match getCachedResponse env s req.href with
    | .error e => .error e
    | .ok (some c) => .ok (c, s)
    | .ok none => .ok (svgPlaceholder, s)
  else .ok (offline503, s)

/-- `getOfflineFallback(request)`.  Its own cache lookups are not guarded, so
a storage failure inside them rejects. -/
def getOfflineFallback (env : Env) (req : Request) (s : SWState) :
    Except Unit (Response × SWState) :=
  if acceptIncludes req "text/html" then
    match getCachedResponse env s (env.selfOrigin ++ "/Inicio.html") with
    | .error e => .error e
    | .ok (some c) => .ok (c, s)
    | .ok none => fallbackAfterHtml env req s
  else fallbackAfterHtml env req s

/-- `handleFetch(request)`: run the classified strategy inside a try; any
escaping failure is answered by `getOfflineFallback`. -/
def handleFetch (env : Env) (req : Request) (s : SWState) :
    Except Unit (Response × SWState) :=
  match runStrategy env req s with
  | .ok x => .ok x
  | .error _ => getOfflineFallback env req s

/-- Outcome of the fetch event listener: either the event is left untouched
(pass through to the network) or `event.respondWith(handleFetch(request))`
is called. -/
inductive FetchDecision where
  | passThrough
  | respond (result : Except Unit (Response × SWState))

/-- Discriminator for `FetchDecision`. -/
def FetchDecision.isPassThrough : FetchDecision → Bool
  | .passThrough => true
  | .respond _ => false

/-- The fetch event listener: skip non-GET requests, skip the
`chrome-extension:` scheme, otherwise respond with `handleFetch`. -/
def fetchListener (env : Env) (req : Request) (s : SWState) : FetchDecision :=
  if req.method != "GET" then .passThrough
  else if req.protocol == "chrome-extension:" then .passThrough
  else .respond (handleFetch env req s)

/-- `cache.addAll(STATIC_ASSETS)`: fetch every asset (resolved against the
worker's origin); the batch is atomic, so any rejected fetch or non-ok
response rejects the whole batch and nothing is stored. -/
def fetchAllAssets (env : Env) : List String → Except Unit (List (String × Response))
  | [] => .ok []
  | a :: rest =>
      match env.fetch (env.selfOrigin ++ a) with
      | .error _ => .error ()
      | .ok r =>
          if r.isOkStatus then
            match fetchAllAssets env rest with
            | .error _ => .error ()
            | .ok l => .ok ((env.selfOrigin ++ a, r) :: l)
          else .error ()

/-- What the install handler leaves behind: whether the promise handed to
`event.waitUntil` rejected, the resulting static store, and whether
`self.skipWaiting()` was reached. -/
structure InstallResult where
  promiseRejected : Bool
  staticStore : List (String × Response)
  skipWaitingCalled : Bool
deriving DecidableEq, Repr

/-- The install event listener: open the static store, `addAll` the critical
assets, then `skipWaiting`; the whole body is wrapped in a try whose catch
only logs, so the promise never rejects. -/
def installHandler (env : Env) : InstallResult :=
  if env.cacheFail then { promiseRejected := false, staticStore := [], skipWaitingCalled := false }
  else
    match fetchAllAssets env STATIC_ASSETS with
    | .ok entries =>
        { promiseRejected := false, staticStore := entries, skipWaitingCalled := true }
    | .error _ =>
        { promiseRejected := false, staticStore := [], skipWaitingCalled := false }

/-- The deletion test of the activate handler:
`name.startsWith('tumatch-protocolo-') && name !== STATIC_CACHE && name !== DYNAMIC_CACHE`. -/
def isOldCache (name : String) : Bool :=
  strStartsWith name "tumatch-protocolo-" && name != STATIC_CACHE && name != DYNAMIC_CACHE

/-- The activate event listener, on the cache-name level: every existing name
passing `isOldCache` is deleted; nothing is created. -/
def activateHandler (names : List String) : List String :=
  names.filter (fun n => !(isOldCache n))

/-- `cleanupCaches()`: if the dynamic store holds more than 50 entries,
delete the first 10 keys returned by `keys()` (insertion order). -/
def cleanupCaches (dyn : List (String × Response)) : List (String × Response) :=
  if 50 < dyn.length then
    dyn.filter (fun e => !(keyInList e.1 ((dyn.map Prod.fst).take 10)))
  else dyn

/-- First-match-wins evaluation of an ordered rule table, with a default
strategy when no rule matches.  This follows the spec's wording of the
classification, to be compared with `classify` from the source. -/
def firstMatchStrategy : List ((Request → Bool) × Strategy) → Strategy → Request → Strategy
  | [], dflt, _ => dflt
  | (p, strat) :: rest, dflt, r =>
      if p r then strat else firstMatchStrategy rest dflt r

/-- The spec's rule table: (1) network-first patterns, (2) declared
static-asset list or same origin. -/
def specRules (env : Env) : List ((Request → Bool) × Strategy) :=
  [ (fun r => matchesNetworkFirst r.href, .networkFirstS)
  , (fun r => STATIC_ASSETS.contains r.pathname || r.origin == env.selfOrigin, .cacheFirstS) ]

/-- Classification as worded by the spec: first-match-wins over the ordered
rule table, defaulting to network-first. -/
def classifySpecOrder (env : Env) (req : Request) : Strategy :=
  firstMatchStrategy (specRules env) .networkFirstS req

/-- Does an `Except` computation succeed? -/
def exceptIsOk : Except Unit (Response × SWState) → Bool
  | .ok _ => true
  | .error _ => false

/-- A generic successful network response. -/
def resp200 : Response :=
  { status := 200, statusText := "OK", headers := [], body := "fresh-body" }

/-- A non-success network response (the fetch promise still resolves). -/
def resp500 : Response :=
  { status := 500, statusText := "Internal Server Error", headers := [], body := "boom" }

/-- A previously cached successful response. -/
def cached200 : Response :=
  { status := 200, statusText := "OK", headers := [], body := "cached-body" }

/-- Both stores empty. -/
def swEmpty : SWState := { staticStore := [], dynamicStore := [] }

/-- Environment in which every network fetch rejects and cache storage is
healthy. -/
def envAllFail : Env :=
  { selfOrigin := "https://app.example", fetch := fun _ => .error (), cacheFail := false }

/-- Environment in which every network fetch rejects and cache storage is
down. -/
def envCacheDown : Env :=
  { selfOrigin := "https://app.example", fetch := fun _ => .error (), cacheFail := true }

/-- Environment in which every network fetch resolves with `resp200`. -/
def envUp : Env :=
  { selfOrigin := "https://app.example", fetch := fun _ => .ok resp200, cacheFail := false }

/-- Environment in which every network fetch resolves with `resp500`. -/
def env500 : Env :=
  { selfOrigin := "https://app.example", fetch := fun _ => .ok resp500, cacheFail := false }

/-- A same-origin HTML page request. -/
def reqHtml : Request :=
  { method := "GET", href := "https://app.example/page.html", protocol := "https:"
  , origin := "https://app.example", pathname := "/page.html", accept := some "text/html" }

/-- A same-origin request for a page that is not in the critical-asset list. -/
def reqNew : Request :=
  { method := "GET", href := "https://app.example/nuevo.html", protocol := "https:"
  , origin := "https://app.example", pathname := "/nuevo.html", accept := none }

/-- A request whose URL matches the `/api/` network-first pattern. -/
def reqApi : Request :=
  { method := "GET", href := "https://app.example/api/data", protocol := "https:"
  , origin := "https://app.example", pathname := "/api/data", accept := none }

/-- A GET request on a non-http(s) internal browser scheme other than
`chrome-extension:`. -/
def reqExt : Request :=
  { method := "GET", href := "moz-extension://abc/x.js", protocol := "moz-extension:"
  , origin := "moz-extension://abc", pathname := "/x.js", accept := none }

/-- A state whose static store already holds an entry for `reqApi`. -/
def sApi : SWState :=
  { staticStore := [("https://app.example/api/data", cached200)], dynamicStore := [] }

/-- A state whose static store already holds an entry for `reqHtml`. -/
def sHtml : SWState :=
  { staticStore := [("https://app.example/page.html", cached200)], dynamicStore := [] }

/-- Cache names present when a new controller version activates after its
install: two stale stores of an older version plus the fresh static store
(the dynamic store does not exist yet). -/
def oldNames : List String :=
  ["tumatch-protocolo-v0.9.0-static", "tumatch-protocolo-v0.9.0-dynamic", STATIC_CACHE]

/-- A dynamic store holding 51 distinct entries, in insertion order. -/
def demo51 : List (String × Response) :=
  (List.range 51).map (fun i => ("k" ++ Nat.repr i, cached200))

/-- A key that is absent from a store is appended by `putEntry`: the store's
content set grows. -/
theorem lookupEntry_none_putEntry (st : List (String × Response)) (key : String)
    (v : Response) (h : lookupEntry st key = none) :
    putEntry st key v = st ++ [(key, v)] := by
  induction st with
  | nil => rfl
  | cons x rest ih =>
      obtain ⟨k, w⟩ := x
      rw [lookupEntry] at h
      by_cases hk : (k == key) = true
      · rw [if_pos hk] at h
        exact absurd h (by simp)
      · rw [if_neg hk] at h
        rw [putEntry, if_neg hk, ih h]
        simp

/-- If any listed asset's fetch rejects, the whole `addAll` batch rejects. -/
theorem fetchAllAssets_error_of_mem (env : Env) (assets : List String) (a : String)
    (ha : a ∈ assets) (hf : env.fetch (env.selfOrigin ++ a) = .error ()) :
    fetchAllAssets env assets = .error () := by
  induction assets with
  | nil => cases ha
  | cons x rest ih =>
      rcases List.mem_cons.mp ha with hax | harest
      · subst hax
        rw [fetchAllAssets, hf]
      · cases hx : env.fetch (env.selfOrigin ++ x) with
        | error e => simp [fetchAllAssets, hx]
        | ok r =>
            by_cases hok : r.isOkStatus = true
            · simp [fetchAllAssets, hx, hok, ih harest]
            · simp [fetchAllAssets, hx, hok]

/-- When cache storage is healthy, the tail of the fallback generator always
produces a response. -/
theorem fallbackAfterHtml_isOk (env : Env) (req : Request) (s : SWState)
    (hc : env.cacheFail = false) :
    exceptIsOk (fallbackAfterHtml env req s) = true := by
  rw [fallbackAfterHtml]
  by_cases hi : acceptIncludes req "image" = true
  · rw [if_pos hi]
    rw [getCachedResponse, if_neg (by simp [hc])]
    cases cachedLookup s req.href with
    | some c => rfl
    | none => rfl
  · rw [if_neg hi]
    rfl

/-- When cache storage is healthy, the fallback generator always produces a
response. -/
theorem getOfflineFallback_isOk (env : Env) (req : Request) (s : SWState)
    (hc : env.cacheFail = false) :
    exceptIsOk (getOfflineFallback env req s) = true := by
  rw [getOfflineFallback]
  by_cases hh : acceptIncludes req "text/html" = true
  · rw [if_pos hh]
    rw [getCachedResponse, if_neg (by simp [hc])]
    cases cachedLookup s (env.selfOrigin ++ "/Inicio.html") with
    | some c => rfl
    | none => exact fallbackAfterHtml_isOk env req s hc
  · rw [if_neg hh]
    exact fallbackAfterHtml_isOk env req s hc

/-- Deleting the first `n` keys of a duplicate-free store, by key, drops
exactly the `n` earliest-inserted entries. -/
theorem filter_keyInList_take (l : List (String × Response))
    (h : (l.map Prod.fst).Nodup) (n : Nat) :
    l.filter (fun e => !(keyInList e.1 ((l.map Prod.fst).take n))) = l.drop n := by
  induction l generalizing n with
  | nil => simp
  | cons x t ih =>
      rw [List.map_cons, List.nodup_cons] at h
      obtain ⟨hx, ht⟩ := h
      cases n with
      | zero =>
          simp [keyInList]
      | succ m =>
          simp only [List.map_cons, List.take_succ_cons, List.drop_succ_cons]
          rw [List.filter_cons_of_neg (by simp [keyInList])]
          have hcongr :
              List.filter
                  (fun e => !(keyInList e.1 (x.1 :: (List.map Prod.fst t).take m))) t
                = List.filter
                  (fun e => !(keyInList e.1 ((List.map Prod.fst t).take m))) t := by
            apply List.filter_congr
            intro e he
            have hne : e.1 ≠ x.1 := by
              intro hEq
              exact hx (hEq ▸ List.mem_map_of_mem Prod.fst he)
            simp [keyInList, hne]
          rw [hcongr]
          exact ih ht m

/-- Claim C1, counterexample: in an environment where every asset fetch
rejects, the install handler still resolves its lifecycle promise (the error
is caught and only logged), so the install attempt does not fail and nothing
is surfaced to the host for retry. -/
theorem install_failure_not_surfaced_cex :
    envAllFail.fetch (envAllFail.selfOrigin ++ "/") = Except.error ()
    ∧ installHandler envAllFail =
        { promiseRejected := false, staticStore := [], skipWaitingCalled := false } :=
  ⟨rfl, rfl⟩

/-- Claim C1 (amended): if fetching any declared critical asset fails, the
atomic addAll batch stores nothing (no partial static store) and skipWaiting
is not reached, but the error is caught and logged rather than surfaced: the
install promise resolves, so the host lifecycle sees a successful install and
does not retry. -/
theorem install_errors_swallowed (env : Env) (a : String)
    (hc : env.cacheFail = false)
    (ha : a ∈ STATIC_ASSETS)
    (hf : env.fetch (env.selfOrigin ++ a) = .error ()) :
    (installHandler env).promiseRejected = false
    ∧ (installHandler env).staticStore = []
    ∧ (installHandler env).skipWaitingCalled = false := by
  have herr := fetchAllAssets_error_of_mem env STATIC_ASSETS a ha hf
  simp [installHandler, hc, herr]

/-- Claim C1 witness: concrete instance of the amended claim. -/
theorem install_errors_swallowed_inst :
    (installHandler envAllFail).promiseRejected = false
    ∧ (installHandler envAllFail).staticStore = []
    ∧ (installHandler envAllFail).skipWaitingCalled = false :=
  install_errors_swallowed envAllFail "/" rfl (by decide) rfl

/-- Claim C2, counterexample: when the cache storage backend fails, the
fallback generator's own unguarded cache lookups reject, and `handleFetch`
rejects to its caller instead of producing a response. -/
theorem handleFetch_rejects_cex :
    handleFetch envCacheDown reqHtml swEmpty = Except.error ()
    ∧ envCacheDown.cacheFail = true :=
  ⟨rfl, rfl⟩

/-- Claim C2 (amended): every network error raised inside a strategy is
caught and funneled into the fallback generator, and as long as cache-storage
operations succeed the fallback always returns a response object, so
`handleFetch` never rejects; a cache-storage failure inside the fallback's own
lookups, however, escapes to the caller. -/
theorem handleFetch_total_when_cache_healthy (env : Env) (req : Request) (s : SWState)
    (hc : env.cacheFail = false) :
    exceptIsOk (handleFetch env req s) = true := by
  unfold handleFetch
  cases hrs : runStrategy env req s with
  | ok x => rfl
  | error e => exact getOfflineFallback_isOk env req s hc

/-- Claim C2 witness: with a healthy cache and a dead network, `handleFetch`
still produces a response. -/
theorem handleFetch_total_inst :
    exceptIsOk (handleFetch envAllFail reqHtml swEmpty) = true :=
  handleFetch_total_when_cache_healthy envAllFail reqHtml swEmpty rfl

/-- Claim C3, counterexample: a same-origin fetch for a page outside the
declared critical-asset list is routed cache-first; the miss is fetched and
the ok response is written into the static store while handling the fetch
event, so the static store grows beyond the install-time list. -/
theorem static_store_grows_cex :
    handleFetch envUp reqNew swEmpty =
      .ok (resp200,
        { staticStore := [("https://app.example/nuevo.html", resp200)]
        , dynamicStore := [] }) :=
  rfl

/-- Claim C3 (amended): the static store is not fixed at the install-time
list: a cache-first miss whose network fetch succeeds appends the response to
the static store; only the dynamic store is untouched by `cacheFirst`. -/
theorem cacheFirst_miss_extends_static_store (env : Env) (req : Request) (s : SWState)
    (r : Response)
    (hc : env.cacheFail = false)
    (hmiss : lookupEntry s.staticStore req.href = none)
    (hf : env.fetch req.href = .ok r)
    (hok : r.isOkStatus = true) :
    cacheFirst env req s =
      .ok (r, { s with staticStore := s.staticStore ++ [(req.href, r)] }) := by
  have hput := lookupEntry_none_putEntry s.staticStore req.href r hmiss
  simp [cacheFirst, hc, hmiss, hf, hok, hput]

/-- Claim C3 witness: concrete instance of the amended claim. -/
theorem cacheFirst_miss_extends_inst :
    cacheFirst envUp reqNew swEmpty =
      .ok (resp200,
        { staticStore := [("https://app.example/nuevo.html", resp200)]
        , dynamicStore := [] }) :=
  cacheFirst_miss_extends_static_store envUp reqNew swEmpty resp200 rfl rfl rfl rfl

/-- Claim C4: a request matching a network-first pattern whose fetch resolves
is answered with the network response for every store state, and neither the
static nor the dynamic store is mutated — the caches are neither read for the
answer nor written. -/
theorem network_first_success_bypasses_stores (env : Env) (req : Request) (s : SWState)
    (r : Response)
    (hm : matchesNetworkFirst req.href = true)
    (hf : env.fetch req.href = .ok r) :
    handleFetch env req s = .ok (r, s) := by
  have hsc : shouldCache req = false := by simp [shouldCache, hm]
  unfold handleFetch runStrategy classify
  simp [hm, networkFirst, hf, hsc]

/-- Claim C4 witness: an `/api/` request with a reachable network returns the
network response and leaves a pre-populated store untouched. -/
theorem network_first_success_bypasses_inst :
    handleFetch envUp reqApi sApi = .ok (resp200, sApi) :=
  network_first_success_bypasses_stores envUp reqApi sApi resp200 rfl rfl

/-- Claim C5: the routing decision of `handleFetch` equals first-match-wins
evaluation of the spec's ordered rule table — network-first patterns first,
then the static-asset list / same-origin cache-first rule, defaulting to
network-first. -/
theorem classification_first_match_order (env : Env) (req : Request) :
    classify env req = classifySpecOrder env req := rfl

/-- Claim C6: on a static-store hit, `cacheFirst` returns the cached response
no matter how the detached background re-fetch turns out; a failed or non-ok
background re-fetch leaves the stores exactly as they were (the entry is not
removed), and an ok background re-fetch overwrites the entry. -/
theorem cacheFirst_hit_background_refresh (env : Env) (req : Request) (s : SWState)
    (cached : Response)
    (hc : env.cacheFail = false)
    (hhit : lookupEntry s.staticStore req.href = some cached) :
    (env.fetch req.href = .error () → cacheFirst env req s = .ok (cached, s))
    ∧ (∀ r, env.fetch req.href = .ok r → r.isOkStatus = true →
        cacheFirst env req s =
          .ok (cached, { s with staticStore := putEntry s.staticStore req.href r }))
    ∧ (∀ r, env.fetch req.href = .ok r → r.isOkStatus = false →
        cacheFirst env req s = .ok (cached, s)) := by
  refine ⟨?_, ?_, ?_⟩
  · intro hf
    simp [cacheFirst, hc, hhit, hf]
  · intro r hf hok
    simp [cacheFirst, hc, hhit, hf, hok]
  · intro r hf hok
    simp [cacheFirst, hc, hhit, hf, hok]

/-- Claim C6 witness: a hit with a failing background re-fetch returns the
cached response and keeps the store unchanged. -/
theorem cacheFirst_hit_background_inst :
    cacheFirst envAllFail reqHtml sHtml = .ok (cached200, sHtml) :=
  (cacheFirst_hit_background_refresh envAllFail reqHtml sHtml cached200 rfl rfl).1 rfl

/-- Claim C7, counterexample: a network-first request whose fetch resolves
with a non-success status is answered with that non-success response even
though the static store holds an entry for the request — a non-success
response is not treated as a failure and triggers no cache lookup. -/
theorem non_success_response_returned_cex :
    handleFetch env500 reqApi sApi = .ok (resp500, sApi)
    ∧ lookupEntry sApi.staticStore reqApi.href = some cached200
    ∧ resp500.status = 500
    ∧ cached200.status = 200 :=
  ⟨rfl, rfl, rfl, rfl⟩

/-- Claim C7 (amended): only a rejected fetch (a network error) sends
`networkFirst` to the caches — static store first, then dynamic store, first
hit returned, and if neither store has the key the failure propagates to the
fallback path; a resolved non-success response is returned to the caller
as-is. -/
theorem network_error_cache_fallback_order (env : Env) (req : Request) (s : SWState)
    (hc : env.cacheFail = false) :
    (∀ r, env.fetch req.href = .ok r → r.isOkStatus = false →
        networkFirst env req s = .ok (r, s))
    ∧ (env.fetch req.href = .error () →
        (∀ c, lookupEntry s.staticStore req.href = some c →
            networkFirst env req s = .ok (c, s))
        ∧ (lookupEntry s.staticStore req.href = none →
            (∀ c, lookupEntry s.dynamicStore req.href = some c →
                networkFirst env req s = .ok (c, s))
            ∧ (lookupEntry s.dynamicStore req.href = none →
                networkFirst env req s = .error ()))) := by
  refine ⟨?_, ?_⟩
  · intro r hf hok
    simp [networkFirst, hf, hok]
  · intro hf
    refine ⟨?_, ?_⟩
    · intro c hstat
      simp [networkFirst, hf, networkFirstCatch, getCachedResponse, hc, cachedLookup, hstat]
    · intro hstat
      refine ⟨?_, ?_⟩
      · intro c hdyn
        simp [networkFirst, hf, networkFirstCatch, getCachedResponse, hc, cachedLookup,
          hstat, hdyn]
      · intro hdyn
        simp [networkFirst, hf, networkFirstCatch, getCachedResponse, hc, cachedLookup,
          hstat, hdyn]

/-- Claim C7 witness: with a dead network and a static-store hit, the cached
entry is returned. -/
theorem network_error_fallback_inst :
    networkFirst envAllFail reqHtml sHtml = .ok (cached200, sHtml) :=
  ((network_error_cache_fallback_order envAllFail reqHtml sHtml rfl).2 rfl).1 cached200 rfl

/-- Claim C8, counterexample: activating with two stale stores and the fresh
static store present deletes the stale ones but creates nothing — afterwards
the dynamic store does not exist, contrary to the claim that the
current-version dynamic store is freshly created and remains. -/
theorem activation_no_dynamic_creation_cex :
    activateHandler oldNames = [STATIC_CACHE]
    ∧ (activateHandler oldNames).contains DYNAMIC_CACHE = false :=
  ⟨by decide, by decide⟩

/-- Claim C8 (amended): activation deletes exactly the existing stores that
carry the application marker but are neither the current static nor the
current dynamic store name, and it creates nothing: a store survives iff it
was present and is either outside the application's namespace or one of the
two current names. -/
theorem activation_deletes_only_stale_app_stores (names : List String) (n : String)
    (h : n ∈ names) :
    (n ∈ activateHandler names ↔
      (strStartsWith n "tumatch-protocolo-" = false ∨ n = STATIC_CACHE ∨ n = DYNAMIC_CACHE))
    ∧ (∀ m, m ∈ activateHandler names → m ∈ names) := by
  constructor
  · rw [activateHandler, List.mem_filter]
    simp [h, isOldCache, Bool.and_eq_false_iff, or_assoc]
  · intro m hm
    exact List.mem_of_mem_filter hm

/-- Claim C8 witness: the current static store survives activation. -/
theorem activation_deletes_inst : STATIC_CACHE ∈ activateHandler oldNames :=
  ((activation_deletes_only_stale_app_stores oldNames STATIC_CACHE (by decide)).1).mpr
    (Or.inr (Or.inl rfl))

/-- Claim C9: the maintenance pass leaves a duplicate-free dynamic store
untouched at or below 50 entries; above 50 it removes exactly the 10
earliest-inserted entries (FIFO by insertion order), so 51 entries become
exactly 41. -/
theorem cleanup_fifo_eviction (d : List (String × Response))
    (h : (d.map Prod.fst).Nodup) :
    (d.length ≤ 50 → cleanupCaches d = d)
    ∧ (50 < d.length → cleanupCaches d = d.drop 10)
    ∧ (d.length = 51 → (cleanupCaches d).length = 41) := by
  have hfil := filter_keyInList_take d h 10
  refine ⟨?_, ?_, ?_⟩
  · intro hle
    rw [cleanupCaches, if_neg (by omega)]
  · intro hgt
    rw [cleanupCaches, if_pos hgt, hfil]
  · intro h51
    rw [cleanupCaches, if_pos (by omega), hfil, List.length_drop]
    omega

/-- Claim C9 witness: a concrete 51-entry dynamic store is cut to its last 41
entries. -/
theorem cleanup_fifo_inst :
    cleanupCaches demo51 = demo51.drop 10 ∧ (cleanupCaches demo51).length = 41 :=
  ⟨(cleanup_fifo_eviction demo51 (by decide)).2.1 (by decide),
   (cleanup_fifo_eviction demo51 (by decide)).2.2 (by decide)⟩

/-- Claim C10, counterexample: a GET request on the `moz-extension:` scheme —
a non-http(s) internal browser scheme — is not passed through: the listener
calls respondWith on it, because the source only skips `chrome-extension:`. -/
theorem other_scheme_intercepted_cex :
    (fetchListener envUp reqExt swEmpty).isPassThrough = false :=
  rfl

/-- Claim C10 (amended): the fetch listener passes a request through exactly
when its method is not GET or its scheme is `chrome-extension:`; every other
request — whatever its scheme — is intercepted and answered by
`handleFetch`. -/
theorem passthrough_characterization (env : Env) (req : Request) (s : SWState) :
    (fetchListener env req s).isPassThrough =
      (req.method != "GET" || req.protocol == "chrome-extension:") := by
  unfold fetchListener
  cases h1 : (req.method != "GET") <;>
    cases h2 : (req.protocol == "chrome-extension:") <;>
      simp [h1, h2, FetchDecision.isPassThrough]
